import Mathlib

/-!
Verification of the Marketing_Analysis dashboard data pipeline (src/app.py).

The program is a Streamlit dashboard over a customer-marketing CSV.  We give a
shallow embedding of its data-transformation pipeline:

* calendar dates and the day-difference used by the old-vs-new chatbot answer
  (pd.to_datetime arithmetic, app.py line 219);
* the typed table (one Row per customer record) and the feature-engineering
  block (app.py lines 59-62) producing Join_Year, Join_Month, Total_Spend and
  Campaign_Accepted_Count;
* the age/income range filters and the aggregate expressions of the tabs
  (count, mean, sum, mode, response rate, group-by, idxmax);
* the chatbot question dispatch (app.py lines 175-222), modelled as a state
  transformer because the old-vs-new answer assigns a new column to the
  shared frame;
* a raw string-level model of load_data (pd.read_csv, app.py lines 42-43)
  and of the feature-engineering block applied to it, for the ingestion
  error-handling claims.

The dataset's numeric columns are integral (pandas reads them as int64), so
they are modelled as ℤ; Income is float64 only because it can be missing,
modelled as Option ℤ over the integral observed values.  Means and rates are
rationals.  Fallible evaluations (int of NaN, indexing an empty mode result,
idxmax of an all-NaN series, an aborting load) return Option/Except.
-/

namespace MarketingAnalysis

/-! ### Calendar dates

pd.to_datetime gives timestamps; subtracting two midnight timestamps and
taking .dt.days is the difference of their civil day numbers.  toDays is the
standard days-from-civil computation (proleptic Gregorian, epoch 1970-01-01);
the dates of this dataset are all CE, where the divisions below are exact
regardless of rounding convention. -/

structure Date where
  year : ℤ
  month : ℤ
  day : ℤ
deriving DecidableEq, Repr

def Date.toDays (d : Date) : ℤ :=
  let y := if d.month ≤ 2 then d.year - 1 else d.year
  let era := (if 0 ≤ y then y else y - 399) / 400
  let yoe := y - era * 400
  let mp := (d.month + 9) % 12
  let doy := (153 * mp + 2) / 5 + d.day - 1
  let doe := yoe * 365 + yoe / 4 - yoe / 100 + doy
  era * 146097 + doe - 719468

/-- (pd.to_datetime("today") - pd.to_datetime(dt)).dt.days for midnight
timestamps: difference of civil day numbers (app.py line 219). -/
def daysBetween (today dt : Date) : ℤ :=
  today.toDays - dt.toDays

/-! ### Numeric helpers -/

/-- Mean of a list of integers as pandas computes it for an integral column:
a rational (float) value; the mean of an empty series is NaN, modelled as
none. -/
def meanZ (l : List ℤ) : Option ℚ :=
  if l.isEmpty then none else some ((l.sum : ℚ) / l.length)

/-- Python int() on a float: truncation toward zero. -/
def intPy (q : ℚ) : ℤ :=
  if q < 0 then ⌈q⌉ else ⌊q⌋

/-- Python round-half-to-even to the nearest integer (ideal decimal model of
round; the dataset magnitudes keep us away from binary-float edge cases). -/
def roundHalfEven (q : ℚ) : ℤ :=
  let f := ⌊q⌋
  let r := q - f
  if r < 1 / 2 then f
  else if 1 / 2 < r then f + 1
  else if 2 ∣ f then f else f + 1

/-- Python round(q, 2). -/
def round2 (q : ℚ) : ℚ :=
  (roundHalfEven (q * 100) : ℚ) / 100

/-! ### Typed data model (spec section 3)

One Row per customer record, with the columns the pipeline consumes.
Income may be missing (pandas NaN), hence Option; the other columns of the
dataset are complete integral columns. -/

structure Row where
  age : ℤ
  Income : Option ℤ
  Marital_Status : String
  Dt_Customer : Date
  MntWines : ℤ
  MntFruits : ℤ
  MntMeatProducts : ℤ
  MntFishProducts : ℤ
  MntSweetProducts : ℤ
  MntGoldProds : ℤ
  NumWebPurchases : ℤ
  NumCatalogPurchases : ℤ
  NumStorePurchases : ℤ
  AcceptedCmp1 : ℤ
  AcceptedCmp2 : ℤ
  AcceptedCmp3 : ℤ
  AcceptedCmp4 : ℤ
  AcceptedCmp5 : ℤ
  Response : ℤ
  NumWebVisitsMonth : ℤ
deriving DecidableEq, Repr

/-- Row plus the four derived columns of the feature-engineering block
(app.py lines 59-62). -/
structure DerivedRow extends Row where
  Join_Year : ℤ
  Join_Month : ℤ
  Total_Spend : ℤ
  Campaign_Accepted_Count : ℤ
deriving DecidableEq, Repr

/-- app.py lines 59-62, expressed row-wise: Join_Year/Join_Month from the
parsed Dt_Customer, Total_Spend = df[product_cols].sum(axis=1),
Campaign_Accepted_Count = df[cmp_cols].sum(axis=1). -/
def deriveRow (r : Row) : DerivedRow :=
  { r with
    Join_Year := r.Dt_Customer.year
    Join_Month := r.Dt_Customer.month
    Total_Spend := r.MntWines + r.MntFruits + r.MntMeatProducts +
      r.MntFishProducts + r.MntSweetProducts + r.MntGoldProds
    Campaign_Accepted_Count := r.AcceptedCmp1 + r.AcceptedCmp2 +
      r.AcceptedCmp3 + r.AcceptedCmp4 + r.AcceptedCmp5 }

abbrev DTable := List DerivedRow

def deriveTable (rows : List Row) : DTable :=
  rows.map deriveRow

/-- product_cols (app.py line 54) with their column accessors. -/
def productCols : List (String × (Row → ℤ)) :=
  [("MntWines", Row.MntWines), ("MntFruits", Row.MntFruits),
   ("MntMeatProducts", Row.MntMeatProducts), ("MntFishProducts", Row.MntFishProducts),
   ("MntSweetProducts", Row.MntSweetProducts), ("MntGoldProds", Row.MntGoldProds)]

/-- purchase_channels (app.py line 55). -/
def purchaseChannels : List (String × (Row → ℤ)) :=
  [("NumWebPurchases", Row.NumWebPurchases),
   ("NumCatalogPurchases", Row.NumCatalogPurchases),
   ("NumStorePurchases", Row.NumStorePurchases)]

/-- cmp_cols (app.py line 56). -/
def cmpCols : List (String × (Row → ℤ)) :=
  [("AcceptedCmp1", Row.AcceptedCmp1), ("AcceptedCmp2", Row.AcceptedCmp2),
   ("AcceptedCmp3", Row.AcceptedCmp3), ("AcceptedCmp4", Row.AcceptedCmp4),
   ("AcceptedCmp5", Row.AcceptedCmp5)]

/-! ### Filters and the Customer-tab KPIs -/

/-- df[(df["age"] >= lo) & (df["age"] <= hi)] (app.py line 84): inclusive
range filter on the age column. -/
def filterAge (t : DTable) (lo hi : ℤ) : DTable :=
  t.filter fun r => decide (lo ≤ r.age ∧ r.age ≤ hi)

/-- Non-missing incomes of the table; pandas mean() skips NaN cells. -/
def incomes (t : DTable) : List ℤ :=
  t.filterMap fun r => r.Income

/-- int(filtered_df['Income'].mean()) (app.py line 87).  When the subset has
no income values the mean is NaN and int(NaN) raises ValueError: modelled as
none. -/
def averageIncomeKPI (t : DTable) : Option ℤ :=
  (meanZ (incomes t)).map intPy

/-- round((filtered_df['Campaign_Accepted_Count'] > 0).mean() * 100, 2)
(app.py line 88).  The mean of an empty boolean mask is NaN (rendered
"nan%"), modelled as none. -/
def campaignResponseRateKPI (t : DTable) : Option ℚ :=
  match t.length with
  | 0 => none
  | n => some (round2 ((((t.filter fun r =>
      decide (0 < r.Campaign_Accepted_Count)).length : ℚ) / n) * 100))

/-- The Customer-tab KPI triple (app.py lines 84-89): total customers,
average income, campaign response rate, over the age-filtered subset. -/
def customerKPIs (t : DTable) (lo hi : ℤ) : ℕ × Option ℤ × Option ℚ :=
  let f := filterAge t lo hi
  (f.length, averageIncomeKPI f, campaignResponseRateKPI f)

/-- int(df["age"].min()) for the slider lower bound (app.py line 82); the
column is integral so int() is the identity.  Empty column gives none. -/
def ageMin (t : DTable) : WithTop ℤ :=
  (t.map fun r => r.age).minimum

/-- int(df["age"].max()) for the slider upper bound (app.py line 82). -/
def ageMax (t : DTable) : WithBot ℤ :=
  (t.map fun r => r.age).maximum

/-! ### mode (Chatbot most-common-age answer, app.py lines 192-193)

pandas Series.mode() returns the sorted list of the values attaining the
maximal frequency; the answer indexes it with [0], hence takes the smallest
such value.  Indexing an empty mode result (empty table) raises, modelled
as none via head?. -/

/-- Maximal frequency attained by any value of the list. -/
def maxCount (l : List ℤ) : ℕ :=
  (l.dedup.map fun v => l.count v).foldr max 0

/-- pandas Series.mode(): the values of maximal frequency, sorted
ascending. -/
def seriesMode (l : List ℤ) : List ℤ :=
  (List.insertionSort (· ≤ ·) l.dedup).filter fun v => decide (l.count v = maxCount l)

/-- df['age'].mode()[0] (app.py line 193). -/
def mostCommonAge (t : DTable) : Option ℤ :=
  (seriesMode (t.map fun r => r.age)).head?

/-! ### Group-by over (Join_Year, Join_Month) (Spend Over Time, app.py
lines 135-136)

pandas groupby sorts the group keys ascending (lexicographically for the
two-level key) and emits exactly the keys observed in the frame. -/

def rowKey (r : DerivedRow) : ℤ × ℤ :=
  (r.Join_Year, r.Join_Month)

/-- Lexicographic order on (year, month) keys: the chronological order. -/
def keyLE (a b : ℤ × ℤ) : Prop :=
  a.1 < b.1 ∨ (a.1 = b.1 ∧ a.2 ≤ b.2)

instance : DecidableRel keyLE := fun a b => by
  unfold keyLE; infer_instance

instance : IsTotal (ℤ × ℤ) keyLE where
  total a b := by
    rcases lt_trichotomy a.1 b.1 with h | h | h
    · exact Or.inl (Or.inl h)
    · rcases le_total a.2 b.2 with h2 | h2
      · exact Or.inl (Or.inr ⟨h, h2⟩)
      · exact Or.inr (Or.inr ⟨h.symm, h2⟩)
    · exact Or.inr (Or.inl h)

instance : IsTrans (ℤ × ℤ) keyLE where
  trans a b c hab hbc := by
    rcases hab with h1 | ⟨e1, l1⟩ <;> rcases hbc with h2 | ⟨e2, l2⟩
    · exact Or.inl (h1.trans h2)
    · exact Or.inl (e2 ▸ h1)
    · exact Or.inl (e1 ▸ h2)
    · exact Or.inr ⟨e1.trans e2, l1.trans l2⟩

/-- Sum of Total_Spend over the rows with a given (year, month) key. -/
def groupTotal (t : DTable) (k : ℤ × ℤ) : ℤ :=
  ((t.filter fun r => decide (rowKey r = k)).map fun r => r.Total_Spend).sum

/-- Observed group keys, sorted ascending, without duplicates: the index of
pandas groupby(["Join_Year", "Join_Month"]). -/
def groupKeys (t : DTable) : List (ℤ × ℤ) :=
  List.insertionSort keyLE (t.map rowKey).dedup

/-- spend_df.groupby(["Join_Year", "Join_Month"])["Total_Spend"].sum()
(app.py line 135): one entry per observed key, sorted chronologically. -/
def spendOverTime (t : DTable) : List ((ℤ × ℤ) × ℤ) :=
  (groupKeys t).map fun k => (k, groupTotal t k)

/-! ### Column-wise sums, means, idxmax, descending sort -/

/-- Per-column totals for a named column family, e.g. df[cmp_cols].sum()
(app.py line 153) or df[product_cols].sum() (line 204). -/
def colSums (cols : List (String × (Row → ℤ))) (t : DTable) : List (String × ℤ) :=
  cols.map fun p => (p.1, (t.map fun r => p.2 r.toRow).sum)

/-- Per-column means, e.g. df[product_cols].mean() (app.py line 201); a mean
over an empty frame is NaN (none). -/
def colMeans (cols : List (String × (Row → ℤ))) (t : DTable) : List (String × Option ℚ) :=
  cols.map fun p => (p.1, meanZ (t.map fun r => p.2 r.toRow))

/-- pandas Series.idxmax(): label of the first occurrence of the maximal
value, skipping NaN entries; raises (none) when every entry is NaN. -/
def idxmaxQ (l : List (String × Option ℚ)) : Option String :=
  (l.foldl
    (fun best p =>
      match p.2 with
      | none => best
      | some v =>
        match best with
        | none => some (p.1, v)
        | some b => if b.2 < v then some (p.1, v) else best)
    none).map Prod.fst

/-- Descending-by-value order on a labelled series of integer totals. -/
def descBySnd (a b : String × ℤ) : Prop :=
  b.2 ≤ a.2

instance : DecidableRel descBySnd := fun a b => by
  unfold descBySnd; infer_instance

/-- Series.sort_values(ascending=False) on a labelled series of totals
(stable model of the pandas sort). -/
def sortDescZ (l : List (String × ℤ)) : List (String × ℤ) :=
  List.insertionSort descBySnd l

/-! ### Campaigns tab (app.py lines 146-168)

Its KPIs read filtered_df (the Customer-tab age filter), but the Campaign
Acceptance Distribution reads the unfiltered df (line 153). -/

structure CampaignsView where
  acceptedCampaigns : ℤ
  respondedCustomers : ℕ
  distribution : List (String × ℤ)
deriving DecidableEq, Repr

/-- The Campaigns-tab quantities (app.py lines 147-155):
int(filtered_df[cmp_cols].sum().sum()) — int() is the identity on the
integral sum — the count of filtered rows with Campaign_Accepted_Count > 0,
and df[cmp_cols].sum() over the full table. -/
def campaignsTab (t : DTable) (lo hi : ℤ) : CampaignsView :=
  let f := filterAge t lo hi
  { acceptedCampaigns := ((colSums cmpCols f).map Prod.snd).sum
    respondedCustomers := (f.filter fun r => decide (0 < r.Campaign_Accepted_Count)).length
    distribution := colSums cmpCols t }

/-! ### Chatbot tab (app.py lines 170-222)

The thirteen canned questions.  The old-vs-new answer (lines 218-222)
assigns a Customer_Since_Days column to the shared frame df and reads the
current date, so the dispatch is modelled as a state transformer over the
session frame, parameterised by today's date. -/

inductive Question where
  | mostCommonAge
  | totalCustomers
  | avgIncome
  | totalAndAvgSpend
  | highestAvgSpendProduct
  | spendPerProductType
  | mostPreferredChannel
  | purchasesPerChannel
  | avgWebVisits
  | responseRateOverall
  | moreThanOneCampaign
  | responsesPerCampaign
  | oldVsNew
deriving DecidableEq, Repr

/-- The session frame: the derived table plus the Customer_Since_Days column,
present only after the old-vs-new answer has assigned it (app.py line 219). -/
structure SessionState where
  table : DTable
  customerSinceDays : Option (List ℤ)
deriving DecidableEq, Repr

/-- The value each canned answer displays (formatting of the surrounding
f-string is presentation and not modelled). -/
inductive AnswerVal where
  | optInt (v : Option ℤ)
  | cnt (n : ℕ)
  | intPair (total : ℤ) (avg : Option ℤ)
  | colName (v : Option String)
  | series (v : List (String × ℤ))
  | optRat (v : Option ℚ)
  | oldNew (old recent : ℕ)
deriving DecidableEq, Repr

/-- The chatbot dispatch (app.py lines 192-222).  Every branch is a pure
read of the table except oldVsNew, which also assigns the
Customer_Since_Days column and depends on today's date.  int() around the
integral Total_Spend sum is the identity; int() around a mean truncates. -/
def runAnswer (q : Question) (s : SessionState) (today : Date) : SessionState × AnswerVal :=
  let t := s.table
  match q with
  | .mostCommonAge => (s, .optInt (mostCommonAge t))
  | .totalCustomers => (s, .cnt t.length)
  | .avgIncome => (s, .optInt (averageIncomeKPI t))
  | .totalAndAvgSpend =>
      (s, .intPair (t.map fun r => r.Total_Spend).sum
        ((meanZ (t.map fun r => r.Total_Spend)).map intPy))
  | .highestAvgSpendProduct => (s, .colName (idxmaxQ (colMeans productCols t)))
  | .spendPerProductType => (s, .series (sortDescZ (colSums productCols t)))
  | .mostPreferredChannel => (s, .colName (idxmaxQ (colMeans purchaseChannels t)))
  | .purchasesPerChannel => (s, .series (sortDescZ (colSums purchaseChannels t)))
  | .avgWebVisits => (s, .optRat (meanZ (t.map fun r => r.NumWebVisitsMonth)))
  | .responseRateOverall =>
      (s, .optRat ((meanZ (t.map fun r => r.Response)).map fun m => m * 100))
  | .moreThanOneCampaign =>
      (s, .cnt (t.filter fun r => decide (1 < r.Campaign_Accepted_Count)).length)
  | .responsesPerCampaign => (s, .series (sortDescZ (colSums cmpCols t)))
  | .oldVsNew =>
      let days := t.map fun r => daysBetween today r.Dt_Customer
      ({ s with customerSinceDays := some days },
        .oldNew (days.filter fun d => decide (1000 < d)).length
          (days.filter fun d => decide (d ≤ 1000)).length)

/-! ### Raw ingestion model (load_data, app.py lines 42-43, and the
feature-engineering block applied to the freshly read frame)

load_data is pd.read_csv(file) with default arguments: the first record of
the delimited text becomes the header (a file whose header is missing is
not detected), each column is type-inferred (numeric when every cell parses
as a number, otherwise kept as strings), and no schema is checked.  The
failures the spec attributes to ingestion actually happen, if at all, in
the feature-engineering block: a KeyError when a column used there is
absent, a parse error when a Dt_Customer cell is not a date, a TypeError
when row-wise summation meets incompatible cells.  The run aborts as a
whole on any of these (Except), so a failed load yields no table. -/

inductive CellVal where
  | num (z : ℤ)
  | txt (s : String)
deriving DecidableEq, Repr

/-- Accumulate decimal digits; any non-digit character fails the parse. -/
def digitsToNat (acc : ℕ) : List Char → Option ℕ
  | [] => some acc
  | c :: cs => if c.isDigit then digitsToNat (acc * 10 + (c.toNat - 48)) cs else none

/-- Parse a nonempty all-digit string of characters. -/
def parseNatChars (cs : List Char) : Option ℕ :=
  if cs.isEmpty then none else digitsToNat 0 cs

/-- Numeric parse used by column type inference (integer literals with an
optional sign; the repository dataset's numeric cells are integers). -/
def parseNumZ (s : String) : Option ℤ :=
  match s.data with
  | '-' :: cs => (parseNatChars cs).map fun n => -(n : ℤ)
  | cs => (parseNatChars cs).map fun n => (n : ℤ)

/-- Split a character list on the dash separator. -/
def splitOnDash : List Char → List (List Char)
  | [] => [[]]
  | c :: cs =>
    let r := splitOnDash cs
    if c = '-' then [] :: r
    else
      match r with
      | [] => [[c]]
      | g :: gs => (c :: g) :: gs

/-- Parse a YYYY-MM-DD date, the format of the Dt_Customer column. -/
def parseDate (s : String) : Option Date :=
  match splitOnDash s.data with
  | [ys, ms, ds] =>
    match parseNatChars ys, parseNatChars ms, parseNatChars ds with
    | some y, some m, some d =>
      if 1 ≤ m ∧ m ≤ 12 ∧ 1 ≤ d ∧ d ≤ 31 then
        some ⟨(y : ℤ), (m : ℤ), (d : ℤ)⟩
      else none
    | _, _, _ => none
  | _ => none

/-- A raw frame: the ordered association of column names to type-inferred
columns, as a pandas frame is an ordered dict of columns. -/
structure RawFrame where
  columns : List (String × List CellVal)
deriving DecidableEq, Repr

def RawFrame.header (f : RawFrame) : List String :=
  f.columns.map Prod.fst

/-- pandas per-column type inference: a column whose cells all parse as
numbers becomes numeric, otherwise it stays an object column of strings. -/
def inferColumn (cells : List String) : List CellVal :=
  match cells.mapM parseNumZ with
  | some zs => zs.map CellVal.num
  | none => cells.map CellVal.txt

/-- Cells of column i across the records (the inputs of interest are
rectangular; a short record contributes nothing at index i). -/
def colAt (records : List (List String)) (i : ℕ) : List String :=
  records.filterMap fun r => r.get? i

/-- pd.read_csv (app.py line 43) on the delimited text, already split into
records and fields: first record is the header, the rest are data; an input
with no records raises EmptyDataError. -/
def read_csv (input : List (List String)) : Except String RawFrame :=
  match input with
  | [] => Except.error "EmptyDataError"
  | hd :: records =>
      Except.ok { columns := hd.enum.map fun p => (p.2, inferColumn (colAt records p.1)) }

/-- df[name]: the column of a raw frame, none on a KeyError. -/
def getCol (f : RawFrame) (name : String) : Option (List CellVal) :=
  (f.columns.find? fun p => p.1 == name).map Prod.snd

/-- Addition of two cells as pandas row-wise sum performs it: numbers add,
strings concatenate, a mixed pair raises TypeError. -/
def cellAdd : CellVal → CellVal → Option CellVal
  | .num a, .num b => some (.num (a + b))
  | .txt a, .txt b => some (.txt (a ++ b))
  | _, _ => none

/-- Row-wise sum of the cells of one record across a column family
(df[cols].sum(axis=1) for that row); the sum of no cells is 0. -/
def sumRowCells : List CellVal → Option CellVal
  | [] => some (.num 0)
  | c :: cs => (sumRowCells cs).bind fun acc => cellAdd c acc

/-- Number of records of the frame. -/
def nRows (f : RawFrame) : ℕ :=
  match f.columns with
  | [] => 0
  | c :: _ => c.2.length

/-- The record at index i restricted to the given columns. -/
def rowSlice (cols : List (List CellVal)) (i : ℕ) : List CellVal :=
  cols.filterMap fun c => c.get? i

def productColNames : List String :=
  ["MntWines", "MntFruits", "MntMeatProducts", "MntFishProducts",
   "MntSweetProducts", "MntGoldProds"]

def cmpColNames : List String :=
  ["AcceptedCmp1", "AcceptedCmp2", "AcceptedCmp3", "AcceptedCmp4", "AcceptedCmp5"]

/-- Look a column up, failing the run with a KeyError when absent. -/
def requireCol (f : RawFrame) (name : String) : Except String (List CellVal) :=
  match getCol f name with
  | some c => Except.ok c
  | none => Except.error ("KeyError: " ++ name)

/-- df[cols].sum(axis=1) over the whole frame for a named column family. -/
def sumAxis1 (f : RawFrame) (names : List String) : Except String (List CellVal) := do
  let cols ← names.mapM (requireCol f)
  (List.range (nRows f)).mapM fun i =>
    match sumRowCells (rowSlice cols i) with
    | some v => Except.ok v
    | none => Except.error "TypeError"

/-- The feature-engineering block (app.py lines 59-62) on the raw frame:
parse Dt_Customer (KeyError when absent, a parse failure aborts the run),
then append Join_Year, Join_Month, Total_Spend, Campaign_Accepted_Count.
The Python run aborts on the first failing statement; the abort is modelled
as the error outcome, which carries no frame. -/
def featureEngineering (f : RawFrame) : Except String RawFrame := do
  let dtCells ← requireCol f "Dt_Customer"
  let dates ← dtCells.mapM fun c =>
    match c with
    | CellVal.txt s =>
      match parseDate s with
      | some d => Except.ok d
      | none => Except.error "DateParseError"
    | CellVal.num _ => Except.error "DateParseError"
  let totalSpend ← sumAxis1 f productColNames
  let cmpCount ← sumAxis1 f cmpColNames
  Except.ok
    { columns := f.columns ++
        [("Join_Year", dates.map fun d => CellVal.num d.year),
         ("Join_Month", dates.map fun d => CellVal.num d.month),
         ("Total_Spend", totalSpend),
         ("Campaign_Accepted_Count", cmpCount)] }

/-- The whole load path: pd.read_csv followed by the feature-engineering
block, all-or-nothing. -/
def loadPipeline (input : List (List String)) : Except String RawFrame :=
  (read_csv input).bind featureEngineering

def exceptIsOk {ε α : Type} : Except ε α → Bool
  | .ok _ => true
  | .error _ => false

/-! ### Concrete sample data -/

/-- A default customer record; concrete tables below override fields. -/
def baseRow : Row :=
  { age := 30, Income := some 50000, Marital_Status := "Single",
    Dt_Customer := ⟨2013, 7, 4⟩, MntWines := 0, MntFruits := 0,
    MntMeatProducts := 0, MntFishProducts := 0, MntSweetProducts := 0,
    MntGoldProds := 0, NumWebPurchases := 0, NumCatalogPurchases := 0,
    NumStorePurchases := 0, AcceptedCmp1 := 0, AcceptedCmp2 := 0,
    AcceptedCmp3 := 0, AcceptedCmp4 := 0, AcceptedCmp5 := 0,
    Response := 0, NumWebVisitsMonth := 0 }

/-- The spec's concrete table: ages 25, 30, 35, 40 with incomes 20000,
40000, 60000, 80000. -/
def ageTable : DTable :=
  deriveTable
    [{ baseRow with age := 25, Income := some 20000 },
     { baseRow with age := 30, Income := some 40000 },
     { baseRow with age := 35, Income := some 60000 },
     { baseRow with age := 40, Income := some 80000 }]

/-- The spec's product-spend row: Wines 100, Fruits 10, Meat 20, Fish 5,
Sweet 5, Gold 10. -/
def spendRow : Row :=
  { baseRow with
    MntWines := 100
    MntFruits := 10
    MntMeatProducts := 20
    MntFishProducts := 5
    MntSweetProducts := 5
    MntGoldProds := 10 }

/-- The spec's campaign-flag row: flags 1, 0, 1, 0, 0. -/
def cmpRow : Row :=
  { baseRow with
    AcceptedCmp1 := 1
    AcceptedCmp3 := 1 }

/-- The spec's grouped scenario: two rows joining 2021-01 with spends 100
and 200, one row joining 2021-03 with spend 50. -/
def groupTable : DTable :=
  deriveTable
    [{ baseRow with
        Dt_Customer := ⟨2021, 1, 5⟩
        MntWines := 100 },
     { baseRow with
        Dt_Customer := ⟨2021, 1, 20⟩
        MntWines := 200 },
     { baseRow with
        Dt_Customer := ⟨2021, 3, 10⟩
        MntWines := 50 }]

/-- A table with a frequency tie: ages 30, 25, 30, 25, 40 (25 and 30 both
appear twice). -/
def tieTable : DTable :=
  deriveTable
    [{ baseRow with age := 30 }, { baseRow with age := 25 },
     { baseRow with age := 30 }, { baseRow with age := 25 },
     { baseRow with age := 40 }]

/-- Two responders of different ages, to separate the filtered KPIs from the
unfiltered campaign distribution. -/
def cmpAgeTable : DTable :=
  deriveTable
    [{ baseRow with
        age := 25
        AcceptedCmp1 := 1 },
     { baseRow with
        age := 35
        AcceptedCmp1 := 1 }]

/-- A chatbot session over a one-row table, column not yet assigned. -/
def chatState : SessionState :=
  { table := deriveTable [baseRow], customerSinceDays := none }

def today0 : Date := ⟨2026, 10, 12⟩

/-- A session whose row joined 2013-01-01, for the old-vs-new answer. -/
def chatStateJoin : SessionState :=
  { table := deriveTable [{ baseRow with Dt_Customer := ⟨2013, 1, 1⟩ }],
    customerSinceDays := none }

/-- 151 days after the join date: the customer counts as new. -/
def dayEarly : Date := ⟨2013, 6, 1⟩

/-- 1096 days after the join date: the customer counts as old. -/
def dayLate : Date := ⟨2016, 1, 1⟩

/-- The header of the ingestion examples: the columns the feature
engineering consumes, plus Income. -/
def csvHeader : List String :=
  ["Dt_Customer", "MntWines", "MntFruits", "MntMeatProducts", "MntFishProducts",
   "MntSweetProducts", "MntGoldProds", "AcceptedCmp1", "AcceptedCmp2",
   "AcceptedCmp3", "AcceptedCmp4", "AcceptedCmp5", "Income"]

/-- One record whose Income cell is not numeric. -/
def csvRecords : List (List String) :=
  [["2013-07-04", "100", "10", "20", "5", "5", "10", "1", "0", "1", "0", "0", "abc"]]

def csvBadIncome : List (List String) :=
  csvHeader :: csvRecords

/-- The frame the pipeline produces on csvBadIncome (it loads successfully). -/
def badIncomeFrame : RawFrame :=
  match loadPipeline csvBadIncome with
  | Except.ok f => f
  | Except.error _ => { columns := [] }

/-! ### Helper lemmas -/

theorem foldr_max_mem (l : List ℕ) (hl : l ≠ []) : l.foldr max 0 ∈ l := by
  induction l with
  | nil => exact absurd rfl hl
  | cons a t ih =>
    cases t with
    | nil => simp
    | cons b t2 =>
      rcases max_choice a ((b :: t2).foldr max 0) with h | h
      · rw [List.foldr_cons, h]
        exact List.mem_cons_self _ _
      · rw [List.foldr_cons, h]
        exact List.mem_cons_of_mem _ (ih (by simp))

theorem le_foldr_max (l : List ℕ) (b : ℕ) (hb : b ∈ l) : b ≤ l.foldr max 0 := by
  induction l with
  | nil => simp at hb
  | cons a t ih =>
    rw [List.foldr_cons]
    rcases List.mem_cons.mp hb with rfl | h
    · exact le_max_left _ _
    · exact (ih h).trans (le_max_right _ _)

/-- Series.mode()[0] on a nonempty column: the head exists, has maximal
frequency, and is the least value among the tied maxima. -/
theorem seriesMode_head (l : List ℤ) (hl : l ≠ []) :
    ∃ v, (seriesMode l).head? = some v ∧
      (∀ w, l.count w ≤ l.count v) ∧
      (∀ w, l.count w = l.count v → v ≤ w) := by
  have hdne : l.dedup ≠ [] := by
    intro hc
    exact hl ((List.dedup_eq_nil l).mp hc)
  have hcne : (l.dedup.map fun v => l.count v) ≠ [] := by
    simpa using hdne
  have hmax : maxCount l ∈ l.dedup.map fun v => l.count v :=
    foldr_max_mem _ hcne
  obtain ⟨u, hud, huc⟩ := List.mem_map.mp hmax
  have husort : u ∈ List.insertionSort (· ≤ ·) l.dedup :=
    (List.perm_insertionSort _ _).mem_iff.mpr hud
  have humode : u ∈ seriesMode l :=
    List.mem_filter.mpr ⟨husort, decide_eq_true huc⟩
  obtain ⟨v, rest, hvr⟩ := List.exists_cons_of_ne_nil (List.ne_nil_of_mem humode)
  have hvmem : v ∈ seriesMode l := by
    rw [hvr]
    exact List.mem_cons_self v rest
  obtain ⟨hvsort, hvdec⟩ := List.mem_filter.mp hvmem
  have hvcount : l.count v = maxCount l := of_decide_eq_true hvdec
  have hvl : v ∈ l :=
    List.mem_dedup.mp ((List.perm_insertionSort _ _).mem_iff.mp hvsort)
  refine ⟨v, by rw [hvr]; rfl, ?_, ?_⟩
  · intro w
    rw [hvcount]
    by_cases hw : w ∈ l
    · exact le_foldr_max _ _ (List.mem_map_of_mem _ (List.mem_dedup.mpr hw))
    · rw [List.count_eq_zero.mpr hw]
      exact Nat.zero_le _
  · intro w hw
    have hwl : w ∈ l := by
      apply List.count_pos_iff.mp
      rw [hw, hvcount, ← huc]
      exact List.count_pos_iff.mpr (List.mem_dedup.mp hud)
    have hwmode : w ∈ seriesMode l :=
      List.mem_filter.mpr
        ⟨(List.perm_insertionSort _ _).mem_iff.mpr (List.mem_dedup.mpr hwl),
         decide_eq_true (hw.trans hvcount)⟩
    have hsorted : List.Sorted (· ≤ ·) (seriesMode l) :=
      List.Pairwise.filter _ (List.sorted_insertionSort _ _)
    rw [hvr] at hwmode hsorted
    rcases List.mem_cons.mp hwmode with rfl | hwr
    · exact le_refl _
    · exact List.rel_of_sorted_cons hsorted w hwr

/-! ### Claim theorems -/

/-- C1: on a range filter whose subset is empty (the range [200, 300] lies
outside all observed ages of ageTable), the Customer-tab aggregates do not
all return the claimed degraded values: count is 0 as claimed, but the mean
evaluates int(NaN), which raises ValueError (none), and the rate evaluates
to NaN, rendered "nan%" rather than "0.00%" (none).  This records the
divergence of app.py lines 84-89 from the spec's degraded-value contract. -/
theorem c1_empty_subset_kpis :
    filterAge ageTable 200 300 = [] ∧
    customerKPIs ageTable 200 300 = (0, none, none) := by
  decide

/-- C5: in every derived table, Total_Spend is the exact sum of the six
product spend fields, and the spec's concrete row (100, 10, 20, 5, 5, 10)
yields exactly 150. -/
theorem c5_total_spend_exact_sum (rows : List Row) (r : DerivedRow)
    (h : r ∈ deriveTable rows) :
    r.Total_Spend = r.MntWines + r.MntFruits + r.MntMeatProducts +
      r.MntFishProducts + r.MntSweetProducts + r.MntGoldProds ∧
    (deriveRow spendRow).Total_Spend = 150 := by
  constructor
  · simp only [deriveTable] at h
    obtain ⟨r0, -, rfl⟩ := List.mem_map.mp h
    rfl
  · decide

theorem c5_total_spend_exact_sum_witness :
    deriveRow spendRow ∈ deriveTable [spendRow] ∧
    ((deriveRow spendRow).Total_Spend = (deriveRow spendRow).MntWines +
      (deriveRow spendRow).MntFruits + (deriveRow spendRow).MntMeatProducts +
      (deriveRow spendRow).MntFishProducts + (deriveRow spendRow).MntSweetProducts +
      (deriveRow spendRow).MntGoldProds ∧
     (deriveRow spendRow).Total_Spend = 150) :=
  ⟨by decide, c5_total_spend_exact_sum [spendRow] (deriveRow spendRow) (by decide)⟩

/-- C6: in every derived table whose five campaign flags are 0/1 values,
Campaign_Accepted_Count is one of 0..5 and equals the number of flags that
are 1. -/
theorem c6_campaign_accepted_count (rows : List Row) (r : DerivedRow)
    (h : r ∈ deriveTable rows)
    (h1 : r.AcceptedCmp1 = 0 ∨ r.AcceptedCmp1 = 1)
    (h2 : r.AcceptedCmp2 = 0 ∨ r.AcceptedCmp2 = 1)
    (h3 : r.AcceptedCmp3 = 0 ∨ r.AcceptedCmp3 = 1)
    (h4 : r.AcceptedCmp4 = 0 ∨ r.AcceptedCmp4 = 1)
    (h5 : r.AcceptedCmp5 = 0 ∨ r.AcceptedCmp5 = 1) :
    (r.Campaign_Accepted_Count = 0 ∨ r.Campaign_Accepted_Count = 1 ∨
     r.Campaign_Accepted_Count = 2 ∨ r.Campaign_Accepted_Count = 3 ∨
     r.Campaign_Accepted_Count = 4 ∨ r.Campaign_Accepted_Count = 5) ∧
    r.Campaign_Accepted_Count =
      (([r.AcceptedCmp1, r.AcceptedCmp2, r.AcceptedCmp3, r.AcceptedCmp4,
         r.AcceptedCmp5].count 1 : ℕ) : ℤ) := by
  simp only [deriveTable] at h
  obtain ⟨r0, -, rfl⟩ := List.mem_map.mp h
  simp only [deriveRow] at h1 h2 h3 h4 h5 ⊢
  rcases h1 with h1 | h1 <;> rcases h2 with h2 | h2 <;> rcases h3 with h3 | h3 <;>
    rcases h4 with h4 | h4 <;> rcases h5 with h5 | h5 <;>
    rw [h1, h2, h3, h4, h5] <;> decide

theorem c6_campaign_accepted_count_witness :
    (deriveRow cmpRow ∈ deriveTable [cmpRow] ∧
     ((deriveRow cmpRow).AcceptedCmp1 = 0 ∨ (deriveRow cmpRow).AcceptedCmp1 = 1) ∧
     ((deriveRow cmpRow).AcceptedCmp2 = 0 ∨ (deriveRow cmpRow).AcceptedCmp2 = 1) ∧
     ((deriveRow cmpRow).AcceptedCmp3 = 0 ∨ (deriveRow cmpRow).AcceptedCmp3 = 1) ∧
     ((deriveRow cmpRow).AcceptedCmp4 = 0 ∨ (deriveRow cmpRow).AcceptedCmp4 = 1) ∧
     ((deriveRow cmpRow).AcceptedCmp5 = 0 ∨ (deriveRow cmpRow).AcceptedCmp5 = 1)) ∧
    (((deriveRow cmpRow).Campaign_Accepted_Count = 0 ∨
      (deriveRow cmpRow).Campaign_Accepted_Count = 1 ∨
      (deriveRow cmpRow).Campaign_Accepted_Count = 2 ∨
      (deriveRow cmpRow).Campaign_Accepted_Count = 3 ∨
      (deriveRow cmpRow).Campaign_Accepted_Count = 4 ∨
      (deriveRow cmpRow).Campaign_Accepted_Count = 5) ∧
     (deriveRow cmpRow).Campaign_Accepted_Count =
       (([(deriveRow cmpRow).AcceptedCmp1, (deriveRow cmpRow).AcceptedCmp2,
          (deriveRow cmpRow).AcceptedCmp3, (deriveRow cmpRow).AcceptedCmp4,
          (deriveRow cmpRow).AcceptedCmp5].count 1 : ℕ) : ℤ)) :=
  ⟨⟨by decide, by decide, by decide, by decide, by decide, by decide⟩,
   c6_campaign_accepted_count [cmpRow] (deriveRow cmpRow) (by decide)
     (by decide) (by decide) (by decide) (by decide) (by decide)⟩

/-- C10: the Campaign Acceptance Distribution of the Campaigns tab is
computed over the full table (app.py line 153 reads df), so it is identical
under every age filter, while the adjacent KPIs read the age-filtered
subset; on cmpAgeTable the [30, 40] filter changes the Accepted Campaigns
KPI but not the distribution. -/
theorem c10_campaign_distribution_unfiltered (t : DTable) (lo hi lo2 hi2 : ℤ) :
    (campaignsTab t lo hi).distribution = (campaignsTab t lo2 hi2).distribution ∧
    (campaignsTab t lo hi).distribution = colSums cmpCols t ∧
    (campaignsTab t lo hi).acceptedCampaigns =
      ((colSums cmpCols (filterAge t lo hi)).map Prod.snd).sum ∧
    (campaignsTab t lo hi).respondedCustomers =
      ((filterAge t lo hi).filter fun r =>
        decide (0 < r.Campaign_Accepted_Count)).length ∧
    (campaignsTab cmpAgeTable 30 40).distribution =
      (campaignsTab cmpAgeTable 25 40).distribution ∧
    (campaignsTab cmpAgeTable 30 40).acceptedCampaigns ≠
      (campaignsTab cmpAgeTable 25 40).acceptedCampaigns :=
  ⟨rfl, rfl, rfl, rfl, by decide, by decide⟩

/-- C3 counterexample: the old-vs-new chatbot answer mutates the Table —
app.py line 219 assigns the Customer_Since_Days column to the shared frame
df — so the session state after the call differs from the state before. -/
theorem c3_counterexample_query_mutates :
    (runAnswer Question.oldVsNew chatState today0).1 ≠ chatState := by
  decide

/-- C3 (amended): every canned chatbot answer except the old-vs-new one
leaves the session frame unchanged — each such call is a pure read
producing a new result value. -/
theorem c3_amended_queries_pure (q : Question) (s : SessionState) (today : Date)
    (h : q ≠ Question.oldVsNew) :
    (runAnswer q s today).1 = s := by
  cases q <;> first | rfl | exact absurd rfl h

theorem c3_amended_queries_pure_witness :
    Question.totalCustomers ≠ Question.oldVsNew ∧
    (runAnswer Question.totalCustomers chatState today0).1 = chatState :=
  ⟨by decide, c3_amended_queries_pure Question.totalCustomers chatState today0 (by decide)⟩

/-- C4 counterexample: the old-vs-new answer is not a function of the Table
and arguments alone — pd.to_datetime("today") (app.py line 219) makes it
depend on the call date.  With the same session (one customer joined
2013-01-01), the call 151 days later answers new (0 old, 1 new) and the
call 1096 days later answers old (1 old, 0 new). -/
theorem c4_counterexample_today_dependent :
    runAnswer Question.oldVsNew chatStateJoin dayEarly ≠
      runAnswer Question.oldVsNew chatStateJoin dayLate := by
  decide

/-- C4 (amended): every aggregate of the catalog and every canned answer
except old-vs-new is a deterministic function of the Table and arguments:
calls on different dates (and hence repeated calls) give bit-identical
results. -/
theorem c4_amended_time_invariant (q : Question) (s : SessionState) (d1 d2 : Date)
    (h : q ≠ Question.oldVsNew) :
    runAnswer q s d1 = runAnswer q s d2 := by
  cases q <;> first | rfl | exact absurd rfl h

theorem c4_amended_time_invariant_witness :
    Question.responsesPerCampaign ≠ Question.oldVsNew ∧
    runAnswer Question.responsesPerCampaign chatStateJoin dayEarly =
      runAnswer Question.responsesPerCampaign chatStateJoin dayLate :=
  ⟨by decide, c4_amended_time_invariant Question.responsesPerCampaign chatStateJoin
    dayEarly dayLate (by decide)⟩

/-- C9: for a table with no missing values in the age column (the model's
age column is total), the range filter with bounds [min(age), max(age)] —
the full slider range of app.py lines 82-84 — returns the table unchanged. -/
theorem c9_full_range_filter_identity (t : DTable) (lo hi : ℤ)
    (hlo : ageMin t = (lo : WithTop ℤ)) (hhi : ageMax t = (hi : WithBot ℤ)) :
    filterAge t lo hi = t := by
  unfold filterAge
  apply List.filter_eq_self.mpr
  intro r hr
  have hmem : r.age ∈ t.map fun x => x.age := List.mem_map_of_mem _ hr
  simp only [ageMin] at hlo
  simp only [ageMax] at hhi
  have h1 : lo ≤ r.age := List.minimum_le_of_mem hmem hlo
  have h2 : r.age ≤ hi := List.le_maximum_of_mem hmem hhi
  simp [h1, h2]

theorem c9_full_range_filter_identity_witness :
    ageMin ageTable = ((25 : ℤ) : WithTop ℤ) ∧
    ageMax ageTable = ((40 : ℤ) : WithBot ℤ) ∧
    filterAge ageTable 25 40 = ageTable :=
  ⟨by decide, by decide,
   c9_full_range_filter_identity ageTable 25 40 (by decide) (by decide)⟩

/-- C7: the grouped sum by (Join_Year, Join_Month) has chronologically
sorted, duplicate-free keys; every entry's key is observed in the table and
its value is the sum of Total_Spend over the rows with that key; every
observed key appears; and the spec's scenario (2021-01 spends 100 and 200,
2021-03 spend 50) yields exactly (2021,1) then (2021,3) with sums 300 and
50 and no entry for 2021-02. -/
theorem c7_grouped_by_observed_months (t : DTable) (e : (ℤ × ℤ) × ℤ)
    (he : e ∈ spendOverTime t) (k : ℤ × ℤ) (hk : k ∈ t.map rowKey) :
    List.Sorted keyLE ((spendOverTime t).map Prod.fst) ∧
    ((spendOverTime t).map Prod.fst).Nodup ∧
    (∃ r, r ∈ t ∧ rowKey r = e.1) ∧
    e.2 = groupTotal t e.1 ∧
    k ∈ (spendOverTime t).map Prod.fst ∧
    spendOverTime groupTable = [((2021, 1), 300), ((2021, 3), 50)] := by
  have hfst : (spendOverTime t).map Prod.fst = groupKeys t := by
    unfold spendOverTime
    rw [List.map_map]
    exact List.map_id _
  refine ⟨?_, ?_, ?_, ?_, ?_, ?_⟩
  · rw [hfst]
    exact List.sorted_insertionSort keyLE _
  · rw [hfst]
    exact ((List.perm_insertionSort keyLE _).nodup_iff).mpr (List.nodup_dedup _)
  · obtain ⟨kk, hkk, rfl⟩ := List.mem_map.mp he
    have hkd : kk ∈ (t.map rowKey).dedup :=
      (List.perm_insertionSort keyLE _).mem_iff.mp hkk
    obtain ⟨r, hr, hrk⟩ := List.mem_map.mp (List.mem_dedup.mp hkd)
    exact ⟨r, hr, hrk⟩
  · obtain ⟨kk, hkk, rfl⟩ := List.mem_map.mp he
    rfl
  · rw [hfst]
    exact (List.perm_insertionSort keyLE _).symm.mem_iff.mp (List.mem_dedup.mpr hk)
  · decide

theorem c7_grouped_by_observed_months_witness :
    (((2021 : ℤ), (1 : ℤ)), (300 : ℤ)) ∈ spendOverTime groupTable ∧
    ((2021 : ℤ), (1 : ℤ)) ∈ groupTable.map rowKey ∧
    (List.Sorted keyLE ((spendOverTime groupTable).map Prod.fst) ∧
     ((spendOverTime groupTable).map Prod.fst).Nodup ∧
     (∃ r, r ∈ groupTable ∧ rowKey r = (((2021 : ℤ), (1 : ℤ)), (300 : ℤ)).1) ∧
     (((2021 : ℤ), (1 : ℤ)), (300 : ℤ)).2 =
       groupTotal groupTable (((2021 : ℤ), (1 : ℤ)), (300 : ℤ)).1 ∧
     ((2021 : ℤ), (1 : ℤ)) ∈ (spendOverTime groupTable).map Prod.fst ∧
     spendOverTime groupTable = [((2021, 1), 300), ((2021, 3), 50)]) :=
  ⟨by decide, by decide,
   c7_grouped_by_observed_months groupTable (((2021 : ℤ), (1 : ℤ)), (300 : ℤ))
     (by decide) ((2021 : ℤ), (1 : ℤ)) (by decide)⟩

/-- C8: on a nonempty table, df['age'].mode()[0] (app.py line 193) returns
a most frequent age, and when several ages tie for the highest frequency it
returns the lowest tied value (Series.mode() sorts the tied values
ascending and [0] takes the first). -/
theorem c8_mode_lowest_tie (t : DTable) (h : t ≠ []) :
    ∃ v, mostCommonAge t = some v ∧
      (∀ w, (t.map fun r => r.age).count w ≤ (t.map fun r => r.age).count v) ∧
      (∀ w, (t.map fun r => r.age).count w = (t.map fun r => r.age).count v → v ≤ w) := by
  have hmne : (t.map fun r => r.age) ≠ [] := by
    simpa [List.map_eq_nil_iff] using h
  exact seriesMode_head _ hmne

theorem c8_mode_lowest_tie_witness :
    tieTable ≠ [] ∧
    (∃ v, mostCommonAge tieTable = some v ∧
      (∀ w, (tieTable.map fun r => r.age).count w ≤ (tieTable.map fun r => r.age).count v) ∧
      (∀ w, (tieTable.map fun r => r.age).count w = (tieTable.map fun r => r.age).count v →
        v ≤ w)) :=
  ⟨by decide, c8_mode_lowest_tie tieTable (by decide)⟩

/-- Destructuring a successful Except bind. -/
theorem bind_ok_ex {ε α β : Type} {x : Except ε α} {g : α → Except ε β} {b : β}
    (h : x >>= g = Except.ok b) : ∃ a, x = Except.ok a ∧ g a = Except.ok b := by
  cases x with
  | error e => exact absurd h (by simp [Bind.bind, Except.bind])
  | ok a =>
    refine ⟨a, rfl, ?_⟩
    simpa [Bind.bind, Except.bind] using h

/-- A successful column lookup means the name is in the header. -/
theorem getCol_some_header {f : RawFrame} {name : String} {c : List CellVal}
    (h : getCol f name = some c) : name ∈ f.header := by
  unfold getCol at h
  cases hf : f.columns.find? fun p => p.1 == name with
  | none =>
    rw [hf] at h
    simp at h
  | some p =>
    have hp : p.1 = name := by simpa using List.find?_some hf
    have hm : p ∈ f.columns := List.mem_of_find?_eq_some hf
    rw [← hp]
    exact List.mem_map_of_mem Prod.fst hm

theorem requireCol_ok_header {f : RawFrame} {name : String} {c : List CellVal}
    (h : requireCol f name = Except.ok c) : name ∈ f.header := by
  unfold requireCol at h
  cases hg : getCol f name with
  | none =>
    rw [hg] at h
    exact absurd h (by simp)
  | some c2 => exact getCol_some_header hg

/-- A successful feature-engineering run requires the Dt_Customer column
and always carries the four derived columns appended to the header: the
block is all-or-nothing. -/
theorem featureEngineering_ok {f0 f : RawFrame}
    (h : featureEngineering f0 = Except.ok f) :
    "Dt_Customer" ∈ f0.header ∧
    f.header = f0.header ++
      ["Join_Year", "Join_Month", "Total_Spend", "Campaign_Accepted_Count"] := by
  unfold featureEngineering at h
  obtain ⟨dtCells, h1, h⟩ := bind_ok_ex h
  obtain ⟨dates, h2, h⟩ := bind_ok_ex h
  obtain ⟨ts, h3, h⟩ := bind_ok_ex h
  obtain ⟨cc, h4, h⟩ := bind_ok_ex h
  constructor
  · exact requireCol_ok_header h1
  · rw [← Except.ok.inj h]
    simp [RawFrame.header, List.map_append]

/-- C2 counterexample: a load whose Income cell cannot be parsed as a
number succeeds — pd.read_csv performs no type checking against declared
column types, and the feature-engineering block never touches Income — so
ingestion does not fail with the claimed TypeCoercionError. -/
theorem c2_counterexample_income_not_type_checked :
    parseNumZ "abc" = none ∧ exceptIsOk (loadPipeline csvBadIncome) = true := by
  decide

/-- C2 (amended): load_data itself validates nothing (a missing header is
undetectable: the first record is taken as the header); the load aborts as
a whole — producing no frame at all — exactly when the feature-engineering
block fails (a column it needs is missing, a Dt_Customer cell does not
parse, row-wise summation hits incompatible cells); a load that returns a
frame always carries the Dt_Customer column and the complete derived
schema.  Cells of columns the derivation does not touch (e.g. Income) are
never type-checked. -/
theorem c2_amended_all_or_nothing (hd : List String) (records : List (List String))
    (f : RawFrame) (h : loadPipeline (hd :: records) = Except.ok f) :
    "Dt_Customer" ∈ hd ∧
    f.header = hd ++
      ["Join_Year", "Join_Month", "Total_Spend", "Campaign_Accepted_Count"] := by
  unfold loadPipeline read_csv at h
  simp only [Except.bind] at h
  have hfe := featureEngineering_ok h
  have hh : RawFrame.header
      { columns := hd.enum.map fun p => (p.2, inferColumn (colAt records p.1)) } = hd := by
    simp only [RawFrame.header, List.map_map]
    exact List.enum_map_snd hd
  rw [hh] at hfe
  exact hfe

theorem c2_amended_all_or_nothing_witness :
    loadPipeline (csvHeader :: csvRecords) = Except.ok badIncomeFrame ∧
    ("Dt_Customer" ∈ csvHeader ∧
     badIncomeFrame.header = csvHeader ++
       ["Join_Year", "Join_Month", "Total_Spend", "Campaign_Accepted_Count"]) :=
  ⟨rfl, c2_amended_all_or_nothing csvHeader csvRecords badIncomeFrame rfl⟩

end MarketingAnalysis
